import Mathlib

/-!
Verification of the Satellite Observation Selection & Trend Engine of the
Hello_farm repository.  Python floats are modelled as exact rationals (ℚ),
Python ints as ℤ, and calendar dates at day granularity as ℤ day numbers.
Each definition is a shallow embedding of the identically-named function in
the source tree.
-/

namespace HelloFarm

/-- Python `int(x)` applied to a (rational-modelled) float: truncation
toward zero. -/
def intTrunc (q : ℚ) : ℤ :=
  if 0 ≤ q then ⌊q⌋ else -⌊-q⌋

/-- Python `round(x)` to an integer: round half to even, on exact
rationals. -/
def roundHalfEven (q : ℚ) : ℤ :=
  if q - ⌊q⌋ < 1 / 2 then ⌊q⌋
  else if 1 / 2 < q - ⌊q⌋ then ⌊q⌋ + 1
  else if ⌊q⌋ % 2 = 0 then ⌊q⌋ else ⌊q⌋ + 1

/-- Python `round(x, n)` on exact rationals. -/
def pyRound (n : ℕ) (q : ℚ) : ℚ :=
  (roundHalfEven (q * 10 ^ n) : ℚ) / 10 ^ n

/-- `server.py` `_ndvi_to_health`:
`return min(100, max(0, int((ndvi + 0.2) * 100)))`. -/
def ndvi_to_health_server (ndvi : ℚ) : ℤ :=
  min 100 (max 0 (intTrunc ((ndvi + 0.2) * 100)))

/-- `src/satellite.py` `SatelliteMonitor.ndvi_to_health_score`
(non-exception path; the `except` branch is unreachable on exact
rationals). -/
def ndvi_to_health_score (ndvi : ℚ) : ℤ :=
  let health : ℤ :=
    if ndvi < 0.2 then intTrunc (ndvi / 0.2 * 30)
    else if ndvi < 0.4 then intTrunc (30 + (ndvi - 0.2) / 0.2 * 30)
    else intTrunc (60 + min (ndvi - 0.4) 0.4 / 0.4 * 40)
  max 0 (min 100 health)

/-- `src/gee_provider.py` `GEEProvider._ndvi_to_health` (same piecewise
curve as `ndvi_to_health_score` but without the final clamp). -/
def gee_ndvi_to_health (ndvi : ℚ) : ℤ :=
  if ndvi < 0.2 then intTrunc (ndvi / 0.2 * 30)
  else if ndvi < 0.4 then intTrunc (30 + (ndvi - 0.2) / 0.2 * 30)
  else intTrunc (60 + min (ndvi - 0.4) 0.4 / 0.4 * 40)

/-- `src/satellite.py` `SatelliteMonitor.calculate_ndvi` (non-exception
path: the arithmetic cannot raise on exact rationals). -/
def calculate_ndvi (nir_band red_band : ℚ) : ℚ :=
  let denominator := nir_band + red_band
  if denominator = 0 then 0.0
  else max 0.0 (min 1.0 ((nir_band - red_band) / denominator))

/-- `server.py` `_compute_trend` returns one of four (telugu, english,
emoji) string triples; this inductive type names them by their english
label. -/
inductive Trend where
  | checked
  | improving
  | declining
  | stable
deriving DecidableEq

/-- one row of the `satellite_history` query result as consumed by
`_compute_trend`; `ndvi_value` is an `Option` because the code reads it
with `history[0].get("ndvi_value", current_ndvi)`. -/
structure HistoryRow where
  ndvi_value : Option ℚ
deriving DecidableEq

/-- `server.py` `_compute_trend`. -/
def compute_trend (current_ndvi : ℚ) (history : List HistoryRow) : Trend :=
  match history with
  | [] => .checked
  | row :: _ =>
    let prev := row.ndvi_value.getD current_ndvi
    let delta := current_ndvi - prev
    if delta > 0.05 then .improving
    else if delta < -0.05 then .declining
    else .stable

/-- the fields of one `SATELLITE_CATALOG` entry of
`src/satellite_manager.py` that the pass predictor reads; the epoch date
is a day number (days since 2024-01-01). -/
structure SatelliteInfo where
  resolution_m : ℤ
  revisit_days : ℤ
  epoch : ℤ
  priority : ℤ
deriving DecidableEq

/-- `src/satellite_manager.py` `SATELLITE_CATALOG`: epochs 2024-01-03,
2024-01-08, 2024-01-05, 2024-01-13 as day numbers 2, 7, 4, 12. -/
def SATELLITE_CATALOG : List (String × SatelliteInfo) :=
  [("Sentinel-2A", ⟨10, 10, 2, 1⟩),
   ("Sentinel-2B", ⟨10, 10, 7, 2⟩),
   ("Landsat-8", ⟨30, 16, 4, 3⟩),
   ("Landsat-9", ⟨30, 16, 12, 4⟩)]

/-- `src/satellite_manager.py` `SatelliteManager.predict_next_pass`,
dates as integer day numbers (Python `%` on ints with a positive modulus
agrees with `Int.emod`). -/
def predict_next_pass (info : SatelliteInfo) (ref : ℤ) : ℤ :=
  let delta := ref - info.epoch
  let days_since_last := delta % info.revisit_days
  let days_until_next :=
    if days_since_last > 0 then info.revisit_days - days_since_last else 0
  ref + days_until_next

/-- a normalized observation dict as produced by
`MultiSatelliteManager._query_collection` and consumed by
`_select_best` / `check_satellite_updates`; the acquisition date is a day
number. -/
structure Obs where
  ndvi : ℚ
  date : ℤ
  satellite : String
  cloud_cover : ℚ
  resolution_m : ℚ
  age_days : ℤ
deriving DecidableEq

/-- an observation together with the `score` and `confidence` fields that
`_select_best` adds. -/
structure ScoredObs where
  obs : Obs
  score : ℚ
  confidence : ℚ
deriving DecidableEq

/-- the per-candidate scoring inside
`MultiSatelliteManager._select_best`. -/
def score_candidate (img : Obs) : ScoredObs :=
  let recency := max 0 (100 - (img.age_days : ℚ) * 10)
  let clouds := 100 - img.cloud_cover
  let resolution := 10 / img.resolution_m * 100
  let score := recency * 0.5 + clouds * 0.3 + resolution * 0.2
  { obs := img, score := score,
    confidence := pyRound 2 (min 1.0 (score / 100)) }

/-- Python `max(s :: rest, key)` semantics: fold keeping the first
element whose key is maximal (a later element replaces the current best
only when its key is strictly greater). -/
def pickMaxBy {α β : Type} [LinearOrder β] (key : α → β)
    (s : α) (rest : List α) : α :=
  rest.foldl (fun best x => if key best < key x then x else best) s

/-- first element with minimal key (GEE `sort(field)` ascending followed
by `first()`, for a stable sort). -/
def pickMinBy {α β : Type} [LinearOrder β] (key : α → β)
    (s : α) (rest : List α) : α :=
  rest.foldl (fun best x => if key x < key best then x else best) s

/-- `MultiSatelliteManager._select_best`: score every candidate and take
`max(scored, key=lambda x: x["score"])` (Python `max` keeps the first
maximal element). -/
def select_best (candidates : List Obs) : Option ScoredObs :=
  match candidates.map score_candidate with
  | [] => none
  | s :: rest => some (pickMaxBy ScoredObs.score s rest)

/-- one image of a GEE image collection, as far as the fetchers read it:
the cloud property, the `system:time_start` acquisition time (modelled at
day granularity), and the regional mean of `normalizedDifference`
(`none` when `reduceRegion` yields no `nd` value). -/
structure EEImage where
  cloud : ℚ
  time : ℤ
  ndviMean : Option ℚ
deriving DecidableEq

/-- outcome of asking the imagery provider for the images of a collection
over the plot geometry and date window: either the list of matching
images, or a raised exception (network error, missing auth, ...) that the
fetcher catches. -/
abbrev ProviderResult := Except String (List EEImage)

/-- scale (resolution in meters) per entry of
`MultiSatelliteManager._COLLECTIONS`. -/
def MULTI_COLLECTIONS : List (String × ℚ) :=
  [("Sentinel-2A", 10), ("Sentinel-2B", 10),
   ("Landsat-8", 30), ("Landsat-9", 30)]

/-- `MultiSatelliteManager._query_collection` for a check run on day
`now`: filter the collection to images with cloud property < 50, take the
most recent one (`sort("system:time_start", False)` then `first()`),
reduce its NDVI over the geometry, and round to 4 decimals — any raised
exception (including an unknown collection key) is caught and yields
`none`.  The `SPACECRAFT_NAME` display-name substitution is not modelled;
the satellite name is passed through. -/
def query_collection (now : ℤ) (satellite_name : String)
    (response : ProviderResult) : Option Obs :=
  match List.lookup satellite_name MULTI_COLLECTIONS with
  | none => none
  | some scale =>
    match response with
    | .error _ => none
    | .ok imgs =>
      match imgs.filter (fun im => im.cloud < 50) with
      | [] => none
      | i :: rest =>
        let image := pickMaxBy EEImage.time i rest
        match image.ndviMean with
        | none => none
        | some v =>
          some { ndvi := pyRound 4 v,
                 date := image.time,
                 satellite := satellite_name,
                 cloud_cover := image.cloud,
                 resolution_m := scale,
                 age_days := now - image.time }

/-- `MultiSatelliteManager.get_latest_ndvi`: query Sentinel-2A, Landsat-8
and Landsat-9, keep the successful candidates, and select the best one;
with no candidate (or when GEE is not initialized) use the fallback
(`_fallback`, abstracted as an argument — the real fallback dict carries
`confidence` 0.6 and no score). -/
def get_latest_ndvi (now : ℤ) (initialized : Bool)
    (fallback : Option ScoredObs)
    (s2 l8 l9 : ProviderResult) : Option ScoredObs :=
  if !initialized then fallback
  else
    let candidates :=
      [query_collection now "Sentinel-2A" s2,
       query_collection now "Landsat-8" l8,
       query_collection now "Landsat-9" l9].filterMap id
    match candidates with
    | [] => fallback
    | _ :: _ => select_best candidates

/-- the fields of the dict returned by `GEEProvider.fetch_ndvi` that the
claims read; on the unavailable path `ndvi`, `cloud_cover_percent` and
`health_score` are `None` and `image_available` is `False`. -/
structure GEEFetchResult where
  ndvi : Option ℚ
  cloud_cover_percent : Option ℚ
  health_score : Option ℤ
  image_available : Bool
deriving DecidableEq

/-- `GEEProvider._unavailable_response` (the fields modelled here). -/
def gee_unavailable_response : GEEFetchResult :=
  { ndvi := none, cloud_cover_percent := none, health_score := none,
    image_available := false }

/-- `GEEProvider.fetch_ndvi`: filter the collection to images with cloud
field < 50, take the least cloudy one (`sort(cloud_field)` ascending then
`first()`), compute the regional NDVI mean, clamp it to [0,1]
(`max(0.0, min(1.0, ...))`), and derive the health score; unauthenticated
provider, a raised exception, an empty collection, or a `None` NDVI all
yield `_unavailable_response`. -/
def gee_fetch_ndvi (available : Bool)
    (response : ProviderResult) : GEEFetchResult :=
  if !available then gee_unavailable_response
  else
    match response with
    | .error _ => gee_unavailable_response
    | .ok imgs =>
      match imgs.filter (fun im => im.cloud < 50) with
      | [] => gee_unavailable_response
      | i :: rest =>
        let image := pickMinBy EEImage.cloud i rest
        match image.ndviMean with
        | none => gee_unavailable_response
        | some v =>
          let ndvi_value := max 0.0 (min 1.0 v)
          { ndvi := some (pyRound 4 ndvi_value),
            cloud_cover_percent := some image.cloud,
            health_score := some (gee_ndvi_to_health ndvi_value),
            image_available := true }

/-- one row of the `satellite_notifications` table
(`src/database.py`, UNIQUE on `(plot_id, satellite_date)`); dates are day
numbers. -/
structure NotifRow where
  plot_id : ℤ
  satellite_date : ℤ
  satellite_name : String
  ndvi : ℚ
deriving DecidableEq

/-- one row of the `satellite_history` table (no uniqueness
constraint). -/
structure HistRow where
  plot_id : ℤ
  check_date : ℤ
  satellite_source : String
  ndvi_value : ℚ
  cloud_cover_percent : ℚ
  health_score : ℚ
deriving DecidableEq

/-- the persisted state the trend/notification engine touches. -/
structure DBState where
  satellite_history : List HistRow
  satellite_notifications : List NotifRow
deriving DecidableEq

/-- `FarmDatabase.has_sent_notification_for_date`:
`SELECT COUNT(*) ... WHERE plot_id = ? AND satellite_date = ?` > 0. -/
def has_sent_notification_for_date (st : DBState)
    (plot_id satellite_date : ℤ) : Bool :=
  st.satellite_notifications.any
    (fun r => r.plot_id == plot_id && r.satellite_date == satellite_date)

/-- `FarmDatabase.record_satellite_notification`: `INSERT OR REPLACE`
honouring the `UNIQUE(plot_id, satellite_date)` constraint — the
conflicting row (if any) is deleted and the new row inserted. -/
def record_satellite_notification (st : DBState)
    (plot_id satellite_date : ℤ) (satellite_name : String)
    (ndvi : ℚ) : DBState :=
  { st with satellite_notifications :=
      (st.satellite_notifications.filter
        (fun r =>
          !(r.plot_id == plot_id && r.satellite_date == satellite_date)))
      ++ [⟨plot_id, satellite_date, satellite_name, ndvi⟩] }

/-- `FarmDatabase.save_satellite_reading`: plain `INSERT` into
`satellite_history`. -/
def save_satellite_reading (st : DBState) (plot_id date : ℤ)
    (source : String) (ndvi cloud_cover health_score : ℚ) : DBState :=
  { st with satellite_history :=
      st.satellite_history ++
        [⟨plot_id, date, source, ndvi, cloud_cover, health_score⟩] }

/-- the body of `server.py` `check_satellite_updates` for one plot, with
the observation fetched by `get_latest_ndvi` as input: no imagery →
skip; a `NotificationRecord` already exists for `(plot_id, sat.date)` →
skip; otherwise `_send_satellite_notification` broadcasts, appends the
reading to `satellite_history` and records the notification.  Returns the
new state and whether a notification was sent. -/
def check_satellite_updates_step (st : DBState) (plot_id : ℤ)
    (sat : Option Obs) : DBState × Bool :=
  match sat with
  | none => (st, false)
  | some o =>
    if has_sent_notification_for_date st plot_id o.date then (st, false)
    else
      let health := ndvi_to_health_server o.ndvi
      let st1 := save_satellite_reading st plot_id o.date o.satellite
        o.ndvi o.cloud_cover (health : ℚ)
      let st2 := record_satellite_notification st1 plot_id o.date
        o.satellite o.ndvi
      (st2, true)

/-- number of `satellite_notifications` rows for an exact
`(plot_id, satellite_date)` key. -/
def notifCount (st : DBState) (p d : ℤ) : ℕ :=
  (st.satellite_notifications.filter
    (fun r => r.plot_id == p && r.satellite_date == d)).length

section HelperLemmas

lemma intTrunc_eq_floor {q : ℚ} (h : 0 ≤ q) : intTrunc q = ⌊q⌋ := by
  simp [intTrunc, h]

lemma intTrunc_eq_ceil {q : ℚ} (h : q < 0) : intTrunc q = ⌈q⌉ := by
  simp only [intTrunc, not_le.mpr h, if_false]
  rw [Int.floor_neg, neg_neg]

lemma floor_le_intTrunc (q : ℚ) : ⌊q⌋ ≤ intTrunc q := by
  by_cases h : 0 ≤ q
  · rw [intTrunc_eq_floor h]
  · rw [intTrunc_eq_ceil (not_le.mp h)]
    exact Int.floor_le_ceil q

lemma intTrunc_le_ceil (q : ℚ) : intTrunc q ≤ ⌈q⌉ := by
  by_cases h : 0 ≤ q
  · rw [intTrunc_eq_floor h]
    exact Int.floor_le_ceil q
  · rw [intTrunc_eq_ceil (not_le.mp h)]

lemma intTrunc_mono {q r : ℚ} (h : q ≤ r) : intTrunc q ≤ intTrunc r := by
  by_cases hq : 0 ≤ q
  · rw [intTrunc_eq_floor hq, intTrunc_eq_floor (hq.trans h)]
    exact Int.floor_le_floor h
  · by_cases hr : 0 ≤ r
    · rw [intTrunc_eq_ceil (not_le.mp hq), intTrunc_eq_floor hr]
      calc ⌈q⌉ ≤ 0 := Int.ceil_le.mpr (by exact_mod_cast le_of_lt (not_le.mp hq))
        _ ≤ ⌊r⌋ := Int.floor_nonneg.mpr hr
    · rw [intTrunc_eq_ceil (not_le.mp hq), intTrunc_eq_ceil (not_le.mp hr)]
      exact Int.ceil_le_ceil h

lemma intTrunc_nonneg {q : ℚ} (h : 0 ≤ q) : 0 ≤ intTrunc q := by
  rw [intTrunc_eq_floor h]
  exact Int.floor_nonneg.mpr h

lemma intTrunc_le_of_le {q : ℚ} {n : ℤ} (h : q ≤ (n : ℚ)) : intTrunc q ≤ n := by
  calc intTrunc q ≤ ⌈q⌉ := intTrunc_le_ceil q
    _ ≤ n := Int.ceil_le.mpr h

lemma le_intTrunc_of_le {q : ℚ} {n : ℤ} (h : (n : ℚ) ≤ q) : n ≤ intTrunc q := by
  calc n ≤ ⌊q⌋ := Int.le_floor.mpr h
    _ ≤ intTrunc q := floor_le_intTrunc q

lemma roundHalfEven_le {q : ℚ} {n : ℤ} (h : q ≤ (n : ℚ)) :
    roundHalfEven q ≤ n := by
  have hfl : ⌊q⌋ ≤ n := Int.floor_le_floor h |>.trans_eq (Int.floor_intCast n)
  unfold roundHalfEven
  split_ifs with h1 h2 h3
  · exact hfl
  · have hq : (⌊q⌋ : ℚ) + 1 / 2 < q := by linarith
    have : (⌊q⌋ : ℚ) < (n : ℚ) := by linarith
    have : ⌊q⌋ < n := by exact_mod_cast this
    omega
  · exact hfl
  · have hq : (⌊q⌋ : ℚ) + 1 / 2 ≤ q := by
      push_neg at h1
      linarith
    have : (⌊q⌋ : ℚ) < (n : ℚ) := by linarith
    have : ⌊q⌋ < n := by exact_mod_cast this
    omega

lemma le_roundHalfEven {q : ℚ} {m : ℤ} (h : (m : ℚ) ≤ q) :
    m ≤ roundHalfEven q := by
  have hfl : m ≤ ⌊q⌋ := Int.le_floor.mpr h
  unfold roundHalfEven
  split_ifs <;> omega

lemma pyRound_nonneg (n : ℕ) {q : ℚ} (h : 0 ≤ q) : 0 ≤ pyRound n q := by
  unfold pyRound
  have hn : (0 : ℚ) < (10 : ℚ) ^ n := by positivity
  have : (0 : ℤ) ≤ roundHalfEven (q * 10 ^ n) := by
    apply le_roundHalfEven
    push_cast
    positivity
  apply div_nonneg _ (le_of_lt hn)
  exact_mod_cast this

lemma pyRound_le_one (n : ℕ) {q : ℚ} (h : q ≤ 1) : pyRound n q ≤ 1 := by
  unfold pyRound
  have hn : (0 : ℚ) < (10 : ℚ) ^ n := by positivity
  rw [div_le_one hn]
  have hb : q * 10 ^ n ≤ ((10 ^ n : ℤ) : ℚ) := by
    push_cast
    nlinarith
  have := roundHalfEven_le hb
  exact_mod_cast this

lemma neg_one_le_pyRound (n : ℕ) {q : ℚ} (h : -1 ≤ q) : -1 ≤ pyRound n q := by
  unfold pyRound
  have hn : (0 : ℚ) < (10 : ℚ) ^ n := by positivity
  rw [le_div_iff₀ hn]
  have hb : ((-(10 ^ n) : ℤ) : ℚ) ≤ q * 10 ^ n := by
    push_cast
    nlinarith
  have := le_roundHalfEven hb
  have : ((-(10 ^ n) : ℤ) : ℚ) ≤ (roundHalfEven (q * 10 ^ n) : ℚ) := by
    exact_mod_cast this
  push_cast at this ⊢
  linarith

lemma pickMaxBy_spec {α β : Type} [LinearOrder β] (key : α → β)
    (s : α) (rest : List α) :
    (pickMaxBy key s rest = s ∨ pickMaxBy key s rest ∈ rest) ∧
      key s ≤ key (pickMaxBy key s rest) ∧
      ∀ x ∈ rest, key x ≤ key (pickMaxBy key s rest) := by
  induction rest generalizing s with
  | nil => simp [pickMaxBy]
  | cons y ys ih =>
    have step :
        pickMaxBy key s (y :: ys) =
          pickMaxBy key (if key s < key y then y else s) ys := by
      simp [pickMaxBy]
    obtain ⟨hmem, hge, hall⟩ := ih (if key s < key y then y else s)
    rw [step]
    refine ⟨?_, ?_, ?_⟩
    · rcases hmem with h | h
      · rw [h]
        split_ifs with hc
        · exact Or.inr (List.mem_cons_self y ys)
        · exact Or.inl rfl
      · exact Or.inr (List.mem_cons_of_mem y h)
    · refine le_trans ?_ hge
      split_ifs with hc
      · exact le_of_lt hc
      · exact le_rfl
    · intro x hx
      rcases List.mem_cons.mp hx with h | h
      · subst h
        refine le_trans ?_ hge
        split_ifs with hc
        · exact le_rfl
        · exact le_of_not_lt hc
      · exact hall x h

lemma pickMinBy_spec {α β : Type} [LinearOrder β] (key : α → β)
    (s : α) (rest : List α) :
    (pickMinBy key s rest = s ∨ pickMinBy key s rest ∈ rest) ∧
      key (pickMinBy key s rest) ≤ key s ∧
      ∀ x ∈ rest, key (pickMinBy key s rest) ≤ key x := by
  induction rest generalizing s with
  | nil => simp [pickMinBy]
  | cons y ys ih =>
    have step :
        pickMinBy key s (y :: ys) =
          pickMinBy key (if key y < key s then y else s) ys := by
      simp [pickMinBy]
    obtain ⟨hmem, hle, hall⟩ := ih (if key y < key s then y else s)
    rw [step]
    refine ⟨?_, ?_, ?_⟩
    · rcases hmem with h | h
      · rw [h]
        split_ifs with hc
        · exact Or.inr (List.mem_cons_self y ys)
        · exact Or.inl rfl
      · exact Or.inr (List.mem_cons_of_mem y h)
    · refine le_trans hle ?_
      split_ifs with hc
      · exact le_of_lt hc
      · exact le_rfl
    · intro x hx
      rcases List.mem_cons.mp hx with h | h
      · subst h
        refine le_trans hle ?_
        split_ifs with hc
        · exact le_rfl
        · exact le_of_not_lt hc
      · exact hall x h

lemma query_collection_success {now : ℤ} {name : String}
    {imgs : List EEImage} {obs : Obs}
    (hm : query_collection now name (Except.ok imgs) = some obs) :
    ∃ i rest w,
      imgs.filter (fun im => im.cloud < 50) = i :: rest ∧
      (pickMaxBy EEImage.time i rest).ndviMean = some w ∧
      obs.ndvi = pyRound 4 w ∧
      obs.date = (pickMaxBy EEImage.time i rest).time ∧
      obs.cloud_cover = (pickMaxBy EEImage.time i rest).cloud := by
  unfold query_collection at hm
  rcases hl : List.lookup name MULTI_COLLECTIONS with _ | scale
  · simp [hl] at hm
  · simp only [hl] at hm
    rcases hF : imgs.filter (fun im => im.cloud < 50) with _ | ⟨i, rest⟩
    · simp [hF] at hm
    · simp only [hF] at hm
      rcases hnd : (pickMaxBy EEImage.time i rest).ndviMean with _ | w
      · simp [hnd] at hm
      · simp only [hnd, Option.some.injEq] at hm
        subst hm
        exact ⟨i, rest, w, hF, hnd, rfl, rfl, rfl⟩

lemma gee_fetch_ndvi_success {imgs : List EEImage} {i : EEImage}
    {rest : List EEImage} {v : ℚ}
    (hF : imgs.filter (fun im => im.cloud < 50) = i :: rest)
    (hnd : (pickMinBy EEImage.cloud i rest).ndviMean = some v) :
    gee_fetch_ndvi true (Except.ok imgs) =
      { ndvi := some (pyRound 4 (max 0.0 (min 1.0 v))),
        cloud_cover_percent := some (pickMinBy EEImage.cloud i rest).cloud,
        health_score := some (gee_ndvi_to_health (max 0.0 (min 1.0 v))),
        image_available := true } := by
  simp [gee_fetch_ndvi, hF, hnd]

lemma gee_fetch_ndvi_bounds {available : Bool} {response : ProviderResult}
    {u : ℚ} (h : (gee_fetch_ndvi available response).ndvi = some u) :
    0 ≤ u ∧ u ≤ 1 := by
  unfold gee_fetch_ndvi at h
  rcases available with _ | _
  · simp [gee_unavailable_response] at h
  · rcases response with e | imgs
    · simp [gee_unavailable_response] at h
    · rcases hF : imgs.filter (fun im => im.cloud < 50) with _ | ⟨i, rest⟩
      · simp [hF, gee_unavailable_response] at h
      · simp only [hF, Bool.not_true, Bool.false_eq_true, if_false] at h
        rcases hnd : (pickMinBy EEImage.cloud i rest).ndviMean with _ | v
        · simp [hnd, gee_unavailable_response] at h
        · simp only [hnd, Option.some.injEq] at h
          subst h
          have hz : (0.0 : ℚ) = 0 := by norm_num
          have ho : (1.0 : ℚ) = 1 := by norm_num
          have hq0 : (0 : ℚ) ≤ max 0.0 (min 1.0 v) := by
            rw [hz]
            exact le_max_left _ _
          have hq1 : max 0.0 (min 1.0 v) ≤ 1 := by
            rw [hz, ho]
            exact max_le (by norm_num) (min_le_left _ _)
          exact ⟨pyRound_nonneg 4 hq0, pyRound_le_one 4 hq1⟩

lemma has_sent_record_self (st : DBState) (p d : ℤ) (n : String) (v : ℚ) :
    has_sent_notification_for_date
      (record_satellite_notification st p d n v) p d = true := by
  simp [has_sent_notification_for_date, record_satellite_notification]

lemma check_step_skip {st : DBState} {plot_id : ℤ} {o : Obs}
    (hs : has_sent_notification_for_date st plot_id o.date = true) :
    check_satellite_updates_step st plot_id (some o) = (st, false) := by
  simp [check_satellite_updates_step, hs]

lemma check_step_send {st : DBState} {plot_id : ℤ} {o : Obs}
    (hs : has_sent_notification_for_date st plot_id o.date = false) :
    check_satellite_updates_step st plot_id (some o) =
      (record_satellite_notification
        (save_satellite_reading st plot_id o.date o.satellite o.ndvi
          o.cloud_cover (ndvi_to_health_server o.ndvi : ℚ))
        plot_id o.date o.satellite o.ndvi, true) := by
  simp [check_satellite_updates_step, hs]

lemma has_sent_after_step (st : DBState) (plot_id : ℤ) (o : Obs) :
    has_sent_notification_for_date
      (check_satellite_updates_step st plot_id (some o)).1 plot_id o.date
      = true := by
  cases hs : has_sent_notification_for_date st plot_id o.date
  · rw [check_step_send hs]
    exact has_sent_record_self _ _ _ _ _
  · rw [check_step_skip hs]
    exact hs

lemma notifCount_save (st : DBState) (plot_id date : ℤ) (source : String)
    (ndvi cloud_cover health_score : ℚ) (p d : ℤ) :
    notifCount (save_satellite_reading st plot_id date source ndvi
      cloud_cover health_score) p d = notifCount st p d := rfl

lemma notifCount_record (st : DBState) (p d : ℤ) (n : String) (v : ℚ)
    (p' d' : ℤ) :
    notifCount (record_satellite_notification st p d n v) p' d' =
      if p' = p ∧ d' = d then 1 else notifCount st p' d' := by
  unfold notifCount record_satellite_notification
  rw [List.filter_append, List.length_append]
  by_cases hk : p' = p ∧ d' = d
  · obtain ⟨hp, hd⟩ := hk
    subst hp
    subst hd
    rw [if_pos ⟨rfl, rfl⟩]
    have hnil : (st.satellite_notifications.filter
        (fun r => !(r.plot_id == p' && r.satellite_date == d'))).filter
        (fun r => r.plot_id == p' && r.satellite_date == d') = [] := by
      rw [List.filter_filter]
      apply List.filter_eq_nil_iff.mpr
      intro r _
      cases hq : r.plot_id == p' && r.satellite_date == d' <;> simp [hq]
    rw [hnil]
    simp
  · rw [if_neg hk]
    have hrow : (([⟨p, d, n, v⟩] : List NotifRow).filter
        (fun r => r.plot_id == p' && r.satellite_date == d')) = [] := by
      simp only [List.filter_eq_nil_iff, List.mem_singleton]
      intro r hr
      subst hr
      simp only [Bool.and_eq_true, beq_iff_eq, not_and]
      intro h1 h2
      exact hk ⟨h1.symm, h2.symm⟩
    rw [hrow, List.filter_filter]
    simp only [List.length_nil, add_zero]
    congr 1
    apply List.filter_congr
    intro r _
    cases hq : r.plot_id == p' && r.satellite_date == d'
    · simp
    · have hkr : (r.plot_id == p && r.satellite_date == d) = false := by
        cases hq2 : r.plot_id == p && r.satellite_date == d
        · rfl
        · simp only [Bool.and_eq_true, beq_iff_eq] at hq hq2
          exact absurd ⟨hq.1.symm.trans hq2.1, hq.2.symm.trans hq2.2⟩ hk
      simp [hkr]

lemma notifCount_step_le (st : DBState) (plot_id : ℤ) (sat : Option Obs)
    (p d : ℤ) (h : notifCount st p d ≤ 1) :
    notifCount (check_satellite_updates_step st plot_id sat).1 p d ≤ 1 := by
  rcases sat with _ | o
  · exact h
  · cases hs : has_sent_notification_for_date st plot_id o.date
    · rw [check_step_send hs]
      dsimp only
      rw [notifCount_record]
      split_ifs
      · exact le_rfl
      · rw [notifCount_save]
        exact h
    · rw [check_step_skip hs]
      exact h

end HelperLemmas

section HealthCurveLemmas

/-- on the first two segments the piecewise curve is the single linear
map `150 * x`. -/
lemma gee_ndvi_to_health_eq_low {x : ℚ} (h : x < 0.4) :
    gee_ndvi_to_health x = intTrunc (150 * x) := by
  unfold gee_ndvi_to_health
  split_ifs with h1 _h2
  · congr 1
    norm_num
    ring
  · congr 1
    norm_num
    ring

lemma gee_ndvi_to_health_eq_high {x : ℚ} (h : ¬x < 0.4) :
    gee_ndvi_to_health x = intTrunc (60 + 100 * min (x - 0.4) 0.4) := by
  have h2 : ¬x < 0.2 := by
    intro hx
    exact h (hx.trans (by norm_num))
  unfold gee_ndvi_to_health
  rw [if_neg h2, if_neg h]
  congr 1
  rw [div_mul_eq_mul_div, mul_comm]
  norm_num
  ring

lemma gee_ndvi_to_health_mono {u v : ℚ} (h : u ≤ v) :
    gee_ndvi_to_health u ≤ gee_ndvi_to_health v := by
  by_cases hu : u < 0.4
  · by_cases hv : v < 0.4
    · rw [gee_ndvi_to_health_eq_low hu, gee_ndvi_to_health_eq_low hv]
      exact intTrunc_mono (by linarith)
    · rw [gee_ndvi_to_health_eq_low hu, gee_ndvi_to_health_eq_high hv]
      apply intTrunc_mono
      have hmin : (0 : ℚ) ≤ min (v - 0.4) 0.4 := by
        apply le_min <;> [linarith [not_lt.mp hv]; norm_num]
      linarith
  · have hv : ¬v < 0.4 := fun hc => hu (lt_of_le_of_lt h hc)
    rw [gee_ndvi_to_health_eq_high hu, gee_ndvi_to_health_eq_high hv]
    apply intTrunc_mono
    have : min (u - 0.4) 0.4 ≤ min (v - 0.4) 0.4 :=
      min_le_min (by linarith) le_rfl
    linarith

lemma gee_ndvi_to_health_nonneg {x : ℚ} (h : 0 ≤ x) :
    0 ≤ gee_ndvi_to_health x := by
  by_cases hx : x < 0.4
  · rw [gee_ndvi_to_health_eq_low hx]
    exact intTrunc_nonneg (by linarith)
  · rw [gee_ndvi_to_health_eq_high hx]
    apply intTrunc_nonneg
    have hmin : (0 : ℚ) ≤ min (x - 0.4) 0.4 := by
      apply le_min <;> [linarith [not_lt.mp hx]; norm_num]
    linarith

lemma gee_ndvi_to_health_le_100 (x : ℚ) : gee_ndvi_to_health x ≤ 100 := by
  by_cases hx : x < 0.4
  · rw [gee_ndvi_to_health_eq_low hx]
    apply intTrunc_le_of_le
    push_cast
    linarith
  · rw [gee_ndvi_to_health_eq_high hx]
    apply intTrunc_le_of_le
    push_cast
    have : min (x - 0.4) 0.4 ≤ 0.4 := min_le_right _ _
    linarith

/-- `ndvi_to_health_score` is the clamp of `_ndvi_to_health` of
`gee_provider.py`; the two bodies are syntactically the same curve. -/
lemma ndvi_to_health_score_eq_clamp (x : ℚ) :
    ndvi_to_health_score x = max 0 (min 100 (gee_ndvi_to_health x)) := rfl

lemma ndvi_to_health_score_eq_gee {x : ℚ} (h : 0 ≤ x) :
    ndvi_to_health_score x = gee_ndvi_to_health x := by
  rw [ndvi_to_health_score_eq_clamp,
    min_eq_right (gee_ndvi_to_health_le_100 x),
    max_eq_right (gee_ndvi_to_health_nonneg h)]

lemma ndvi_to_health_server_mono {u v : ℚ} (h : u ≤ v) :
    ndvi_to_health_server u ≤ ndvi_to_health_server v := by
  unfold ndvi_to_health_server
  exact min_le_min le_rfl
    (max_le_max le_rfl (intTrunc_mono (by linarith)))

lemma ndvi_to_health_server_nonneg (x : ℚ) : 0 ≤ ndvi_to_health_server x :=
  le_min (by norm_num) (le_max_left _ _)

lemma ndvi_to_health_server_le_100 (x : ℚ) :
    ndvi_to_health_server x ≤ 100 := min_le_left _ _

end HealthCurveLemmas

/-- C1: on inputs `ndvi ≥ 0` the mapping `ndvi_to_health_score` of
`src/satellite.py` (and the identical `_ndvi_to_health` of
`src/gee_provider.py`) is the spec's piecewise-linear curve —
`int(ndvi/0.2*30)` on `[0,0.2)`, `int(30+(ndvi-0.2)/0.2*30)` on
`[0.2,0.4)`, `int(60+min(ndvi-0.4,0.4)/0.4*40)` for `ndvi ≥ 0.4` — with
the anchor values 0 ↦ 0, 0.2 ↦ 30, 0.4 ↦ 60, 0.8 ↦ 100.  (The third
cited symbol, `_ndvi_to_health` of `server.py`, does NOT follow this
curve; see the counterexample.) -/
theorem c1_health_piecewise (ndvi : ℚ) (h0 : 0 ≤ ndvi) :
    (ndvi < 0.2 → ndvi_to_health_score ndvi = intTrunc (ndvi / 0.2 * 30)) ∧
    (0.2 ≤ ndvi → ndvi < 0.4 →
      ndvi_to_health_score ndvi = intTrunc (30 + (ndvi - 0.2) / 0.2 * 30)) ∧
    (0.4 ≤ ndvi →
      ndvi_to_health_score ndvi =
        intTrunc (60 + min (ndvi - 0.4) 0.4 / 0.4 * 40)) ∧
    gee_ndvi_to_health ndvi = ndvi_to_health_score ndvi ∧
    ndvi_to_health_score 0 = 0 ∧ ndvi_to_health_score 0.2 = 30 ∧
    ndvi_to_health_score 0.4 = 60 ∧ ndvi_to_health_score 0.8 = 100 := by
  refine ⟨?_, ?_, ?_, (ndvi_to_health_score_eq_gee h0).symm, ?_, ?_, ?_, ?_⟩
  · intro h
    rw [ndvi_to_health_score_eq_gee h0]
    unfold gee_ndvi_to_health
    rw [if_pos h]
  · intro hle hlt
    rw [ndvi_to_health_score_eq_gee h0]
    unfold gee_ndvi_to_health
    rw [if_neg (not_lt.mpr hle), if_pos hlt]
  · intro hge
    rw [ndvi_to_health_score_eq_gee h0]
    unfold gee_ndvi_to_health
    rw [if_neg (not_lt.mpr (le_trans (by norm_num) hge)),
      if_neg (not_lt.mpr hge)]
  all_goals norm_num [ndvi_to_health_score, intTrunc]

/-- C1 witness: the theorem applied at `ndvi = 0.1`. -/
theorem c1_health_piecewise_witness :
    ndvi_to_health_score 0.1 = intTrunc ((0.1 : ℚ) / 0.2 * 30) :=
  (c1_health_piecewise 0.1 (by norm_num)).1 (by norm_num)

/-- C1 counterexample: `server.py`'s `_ndvi_to_health` maps 0 to 20 and
0.2 to 40, not to the 0 and 30 the claimed piecewise curve demands, so
the claim is false for that cited mapping. -/
theorem c1_counterexample :
    ndvi_to_health_server 0 = 20 ∧ ndvi_to_health_server 0.2 = 40 ∧
    (20 : ℤ) ≠ 0 ∧ (40 : ℤ) ≠ 30 := by
  refine ⟨?_, ?_, by decide, by decide⟩ <;>
    norm_num [ndvi_to_health_server, intTrunc]

/-- C8: all three NDVI-to-health mappings (`ndvi_to_health_score` of
`src/satellite.py`, `_ndvi_to_health` of `src/gee_provider.py`, and
`_ndvi_to_health` of `server.py`) are monotonically non-decreasing on
[0,1] and produce values in [0,100] there. -/
theorem c8_health_monotone_bounded (u v : ℚ) (h0 : 0 ≤ u) (huv : u ≤ v)
    (h1 : v ≤ 1) :
    (ndvi_to_health_score u ≤ ndvi_to_health_score v ∧
      0 ≤ ndvi_to_health_score v ∧ ndvi_to_health_score v ≤ 100) ∧
    (gee_ndvi_to_health u ≤ gee_ndvi_to_health v ∧
      0 ≤ gee_ndvi_to_health v ∧ gee_ndvi_to_health v ≤ 100) ∧
    (ndvi_to_health_server u ≤ ndvi_to_health_server v ∧
      0 ≤ ndvi_to_health_server v ∧ ndvi_to_health_server v ≤ 100) := by
  have h0v : 0 ≤ v := le_trans h0 huv
  refine ⟨⟨?_, ?_, ?_⟩, ⟨?_, ?_, ?_⟩, ?_, ?_, ?_⟩
  · rw [ndvi_to_health_score_eq_gee h0, ndvi_to_health_score_eq_gee h0v]
    exact gee_ndvi_to_health_mono huv
  · rw [ndvi_to_health_score_eq_gee h0v]
    exact gee_ndvi_to_health_nonneg h0v
  · rw [ndvi_to_health_score_eq_gee h0v]
    exact gee_ndvi_to_health_le_100 v
  · exact gee_ndvi_to_health_mono huv
  · exact gee_ndvi_to_health_nonneg h0v
  · exact gee_ndvi_to_health_le_100 v
  · exact ndvi_to_health_server_mono huv
  · exact ndvi_to_health_server_nonneg v
  · exact ndvi_to_health_server_le_100 v

/-- C8 witness: the theorem applied at `u = 0.1`, `v = 0.5`. -/
theorem c8_health_monotone_bounded_witness :
    ndvi_to_health_score 0.1 ≤ ndvi_to_health_score 0.5 :=
  (c8_health_monotone_bounded 0.1 0.5 (by norm_num) (by norm_num)
    (by norm_num)).1.1

/-- C10: `calculate_ndvi` of `src/satellite.py` is total and safe — a
zero denominator yields 0.0 rather than a division error, and every
result lies in [0,1]. -/
theorem c10_calculate_ndvi_total (nir red : ℚ) :
    0 ≤ calculate_ndvi nir red ∧ calculate_ndvi nir red ≤ 1 ∧
    (nir + red = 0 → calculate_ndvi nir red = 0) := by
  by_cases hd : nir + red = 0
  · norm_num [calculate_ndvi, hd]
  · have he : calculate_ndvi nir red =
        max 0 (min 1 ((nir - red) / (nir + red))) := by
      norm_num [calculate_ndvi, hd]
    rw [he]
    refine ⟨le_max_left _ _, ?_, fun h => absurd h hd⟩
    exact max_le (by norm_num) (min_le_left _ _)

/-- C10 witness: the theorem applied at `nir = red = 0`. -/
theorem c10_calculate_ndvi_total_witness : calculate_ndvi 0 0 = 0 :=
  (c10_calculate_ndvi_total 0 0).2.2 (by norm_num)

/-- C3: `_compute_trend` of `server.py` classifies by
`delta = current_ndvi - history[0]["ndvi_value"]`: improving exactly when
`delta > 0.05`, declining exactly when `delta < -0.05`, stable otherwise
(both boundaries exclusive, so `delta = 0.05` and `delta = 0` are
stable); an empty history yields the baseline "checked" result, never
improving or declining. -/
theorem c3_trend_classification (current prev : ℚ) (rest : List HistoryRow) :
    (compute_trend current (⟨some prev⟩ :: rest) = .improving ↔
      0.05 < current - prev) ∧
    (compute_trend current (⟨some prev⟩ :: rest) = .declining ↔
      current - prev < -0.05) ∧
    (compute_trend current (⟨some prev⟩ :: rest) = .stable ↔
      -0.05 ≤ current - prev ∧ current - prev ≤ 0.05) ∧
    compute_trend current [] = .checked ∧
    compute_trend 0.06 [⟨some 0⟩] = .improving ∧
    compute_trend (-0.06) [⟨some 0⟩] = .declining ∧
    compute_trend 0 [⟨some 0⟩] = .stable ∧
    compute_trend 0.05 [⟨some 0⟩] = .stable := by
  have hred : compute_trend current (⟨some prev⟩ :: rest) =
      (if current - prev > 0.05 then Trend.improving
       else if current - prev < -0.05 then Trend.declining
       else Trend.stable) := rfl
  refine ⟨?_, ?_, ?_, rfl, ?_, ?_, ?_, ?_⟩
  · rw [hred]
    split_ifs with hA hB
    · exact iff_of_true rfl hA
    · exact iff_of_false (by simp) hA
    · exact iff_of_false (by simp) hA
  · rw [hred]
    split_ifs with hA hB
    · exact iff_of_false (by simp) (by linarith)
    · exact iff_of_true rfl hB
    · exact iff_of_false (by simp) hB
  · rw [hred]
    split_ifs with hA hB
    · exact iff_of_false (by simp) (by rintro ⟨-, h2⟩; linarith)
    · exact iff_of_false (by simp) (by rintro ⟨h1, -⟩; linarith)
    · exact iff_of_true rfl ⟨by linarith [not_lt.mp hB], by
        linarith [not_lt.mp hA]⟩
  all_goals norm_num [compute_trend]

/-- C5: `predict_next_pass` of `src/satellite_manager.py` implements the
modular revisit cycle for every cataloged satellite (day-granularity
dates): with `days_since_last = (ref - epoch) % revisit`, it returns
`ref + (revisit - days_since_last)` when `days_since_last > 0` and `ref`
itself otherwise; in particular it is periodic — the epoch maps to itself
and so does `epoch + k * revisit` for every `k ≥ 0`. -/
theorem c5_predict_next_pass (name : String) (info : SatelliteInfo)
    (hmem : (name, info) ∈ SATELLITE_CATALOG) (ref k : ℤ) (hk : 0 ≤ k) :
    predict_next_pass info ref =
      (if 0 < (ref - info.epoch) % info.revisit_days
       then ref + (info.revisit_days - (ref - info.epoch) % info.revisit_days)
       else ref) ∧
    predict_next_pass info info.epoch = info.epoch ∧
    predict_next_pass info (info.epoch + k * info.revisit_days) =
      info.epoch + k * info.revisit_days := by
  refine ⟨?_, ?_, ?_⟩
  · simp only [predict_next_pass, gt_iff_lt]
    split_ifs with h
    · rfl
    · simp
  · simp [predict_next_pass]
  · have hz : (info.epoch + k * info.revisit_days - info.epoch) %
        info.revisit_days = 0 := by
      have he : info.epoch + k * info.revisit_days - info.epoch =
          k * info.revisit_days := by ring
      rw [he]
      exact Int.mul_emod_left k info.revisit_days
    simp [predict_next_pass, hz]

/-- C5 witness: the theorem applied to the Sentinel-2A catalog entry at
its epoch (day 2) with `k = 3`. -/
theorem c5_predict_next_pass_witness :
    predict_next_pass ⟨10, 10, 2, 1⟩ 2 = 2 :=
  (c5_predict_next_pass "Sentinel-2A" ⟨10, 10, 2, 1⟩ (by simp [SATELLITE_CATALOG])
    2 3 (by norm_num)).2.1

/-- C4 (amended): for every non-empty candidate list `_select_best`
returns a scored candidate whose score
`0.5*recency + 0.3*cloud_free + 0.2*resolution_score` is maximal, and
its confidence is `min(1.0, score/100)` ROUNDED TO TWO DECIMALS
(`round(..., 2)`); in the spec's scenario the Sentinel-2A candidate
(age 1 d, cloud 10 %, 10 m) scores 92 and beats the Landsat-8 candidate
(age 0 d, cloud 60 %, 30 m), which scores 206/3 ≈ 68.7. -/
theorem c4_select_best_max (candidates : List Obs) (h : candidates ≠ []) :
    (∃ best, select_best candidates = some best ∧
      best ∈ candidates.map score_candidate ∧
      (∀ s ∈ candidates.map score_candidate, s.score ≤ best.score) ∧
      best.confidence = pyRound 2 (min 1.0 (best.score / 100))) ∧
    (select_best [⟨0.5, 6, "Sentinel-2A", 10, 10, 1⟩,
                  ⟨0.5, 7, "Landsat-8", 60, 30, 0⟩]).map ScoredObs.score
      = some 92 ∧
    (select_best [⟨0.5, 6, "Sentinel-2A", 10, 10, 1⟩,
                  ⟨0.5, 7, "Landsat-8", 60, 30, 0⟩]).map
        (fun s => s.obs.satellite) = some "Sentinel-2A" ∧
    (select_best [⟨0.5, 7, "Landsat-8", 60, 30, 0⟩]).map ScoredObs.score
      = some (206/3) := by
  refine ⟨?_, ?_, ?_, ?_⟩
  · match candidates, h with
    | c :: cs, _ =>
      obtain ⟨hmem, hge, hall⟩ :=
        pickMaxBy_spec ScoredObs.score (score_candidate c)
          (cs.map score_candidate)
      refine ⟨pickMaxBy ScoredObs.score (score_candidate c)
        (cs.map score_candidate), rfl, ?_, ?_, ?_⟩
      · rcases hmem with hm | hm
        · rw [hm, List.map_cons]
          exact List.mem_cons_self _ _
        · rw [List.map_cons]
          exact List.mem_cons_of_mem _ hm
      · intro s hs
        rw [List.map_cons] at hs
        rcases List.mem_cons.mp hs with hs | hs
        · rw [hs]
          exact hge
        · exact hall s hs
      · have hb : pickMaxBy ScoredObs.score (score_candidate c)
            (cs.map score_candidate) ∈ (c :: cs).map score_candidate := by
          rcases hmem with hm | hm
          · rw [hm, List.map_cons]
            exact List.mem_cons_self _ _
          · rw [List.map_cons]
            exact List.mem_cons_of_mem _ hm
        obtain ⟨img, _, himg⟩ := List.mem_map.mp hb
        rw [← himg]
        rfl
  all_goals
    norm_num [select_best, score_candidate, pickMaxBy, pyRound,
      roundHalfEven]

/-- C4 witness: the theorem applied to the one-candidate Landsat-8
list. -/
theorem c4_select_best_max_witness :
    ∃ best,
      select_best [(⟨0.5, 7, "Landsat-8", 60, 30, 0⟩ : Obs)] = some best ∧
      best ∈ [(⟨0.5, 7, "Landsat-8", 60, 30, 0⟩ : Obs)].map score_candidate ∧
      (∀ s ∈ [(⟨0.5, 7, "Landsat-8", 60, 30, 0⟩ : Obs)].map score_candidate,
        s.score ≤ best.score) ∧
      best.confidence = pyRound 2 (min 1.0 (best.score / 100)) :=
  (c4_select_best_max [⟨0.5, 7, "Landsat-8", 60, 30, 0⟩] (by simp)).1

/-- C2: the notification decision of `check_satellite_updates` is
idempotent per (plot, observation date): when the second fetched
observation carries the same date, the second run sends nothing and
leaves the state untouched; the first run sends exactly when no
`NotificationRecord` for `(plot_id, date)` exists yet and records the
notification afterwards; and a state with at most one
`satellite_notifications` row per `(plot_id, satellite_date)` key keeps
that property across a run (`INSERT OR REPLACE` + the UNIQUE
constraint). -/
theorem c2_notification_idempotent (st : DBState) (plot_id : ℤ)
    (o o' : Obs) (hdate : o'.date = o.date) :
    ((check_satellite_updates_step
        (check_satellite_updates_step st plot_id (some o)).1 plot_id
        (some o')).2 = false ∧
      (check_satellite_updates_step
        (check_satellite_updates_step st plot_id (some o)).1 plot_id
        (some o')).1 = (check_satellite_updates_step st plot_id (some o)).1) ∧
    (check_satellite_updates_step st plot_id (some o)).2 =
      !has_sent_notification_for_date st plot_id o.date ∧
    has_sent_notification_for_date
      (check_satellite_updates_step st plot_id (some o)).1 plot_id o.date
      = true ∧
    (∀ p d, notifCount st p d ≤ 1 →
      notifCount (check_satellite_updates_step st plot_id (some o)).1 p d
        ≤ 1) := by
  have h1 := has_sent_after_step st plot_id o
  have h1' : has_sent_notification_for_date
      (check_satellite_updates_step st plot_id (some o)).1 plot_id o'.date
      = true := by
    rw [hdate]
    exact h1
  have hskip := check_step_skip h1'
  refine ⟨⟨?_, ?_⟩, ?_, h1, fun p d h => notifCount_step_le _ _ _ _ _ h⟩
  · rw [hskip]
  · rw [hskip]
  · cases hs : has_sent_notification_for_date st plot_id o.date
    · rw [check_step_send hs]
      rfl
    · rw [check_step_skip hs]
      rfl

/-- C2 witness: the theorem applied to the empty database and a concrete
observation run twice — the second run does not send. -/
theorem c2_notification_idempotent_witness :
    (check_satellite_updates_step
      (check_satellite_updates_step ⟨[], []⟩ 1
        (some ⟨0.5, 5, "Landsat-8", 20, 30, 1⟩)).1 1
      (some ⟨0.5, 5, "Landsat-8", 20, 30, 1⟩)).2 = false :=
  (c2_notification_idempotent ⟨[], []⟩ 1 ⟨0.5, 5, "Landsat-8", 20, 30, 1⟩
    ⟨0.5, 5, "Landsat-8", 20, 30, 1⟩ rfl).1.1

/-- C6 (amended): every successful `GEEProvider.fetch_ndvi` result
carries an NDVI clamped to [0,1] (raw negatives mapped to 0 before
rounding), but `MultiSatelliteManager._query_collection` does NOT clamp:
its ndvi is the raw regional mean rounded to 4 decimals, so it lies in
[-1,1] whenever the raw mean does — and can be negative. -/
theorem c6_ndvi_clamped (available : Bool) (response : ProviderResult)
    (now : ℤ) (name : String) (imgs : List EEImage) (obs : Obs)
    (hq : query_collection now name (Except.ok imgs) = some obs)
    (hraw : ∀ im ∈ imgs, ∀ w, im.ndviMean = some w → -1 ≤ w ∧ w ≤ 1) :
    (∀ u, (gee_fetch_ndvi available response).ndvi = some u →
      0 ≤ u ∧ u ≤ 1) ∧
    (-1 ≤ obs.ndvi ∧ obs.ndvi ≤ 1) := by
  refine ⟨fun u hu => gee_fetch_ndvi_bounds hu, ?_⟩
  obtain ⟨i, rest, w, hF, hnd, hndvi, -, -⟩ := query_collection_success hq
  have hpick : pickMaxBy EEImage.time i rest ∈ imgs := by
    have hmem : pickMaxBy EEImage.time i rest ∈ i :: rest := by
      rcases (pickMaxBy_spec EEImage.time i rest).1 with hm | hm
      · rw [hm]
        exact List.mem_cons_self _ _
      · exact List.mem_cons_of_mem _ hm
    rw [← hF] at hmem
    exact List.mem_of_mem_filter hmem
  obtain ⟨hw1, hw2⟩ := hraw _ hpick w hnd
  rw [hndvi]
  exact ⟨neg_one_le_pyRound 4 hw1, pyRound_le_one 4 hw2⟩

/-- C6 witness: the theorem applied to a one-image fetch with raw NDVI
mean 0.5. -/
theorem c6_ndvi_clamped_witness :
    -1 ≤ (⟨0.5, 2, "Sentinel-2A", 40, 10, 0⟩ : Obs).ndvi ∧
    (⟨0.5, 2, "Sentinel-2A", 40, 10, 0⟩ : Obs).ndvi ≤ 1 :=
  (c6_ndvi_clamped true (Except.ok [⟨40, 2, some 0.5⟩]) 2 "Sentinel-2A"
    [⟨40, 2, some 0.5⟩] ⟨0.5, 2, "Sentinel-2A", 40, 10, 0⟩
    (by norm_num [query_collection, MULTI_COLLECTIONS, List.lookup,
      pickMaxBy, pyRound, roundHalfEven, List.filter])
    (by
      intro im him w hw
      simp only [List.mem_singleton] at him
      subst him
      simp only [Option.some.injEq] at hw
      subst hw
      norm_num)).2

/-- C6 counterexample: a successful `_query_collection` fetch whose raw
regional NDVI mean is -0.3 returns an observation with ndvi = -0.3 — the
value is neither in [0,1] nor mapped to 0, so the claim is false for this
candidate fetcher. -/
theorem c6_counterexample :
    (query_collection 2 "Sentinel-2A"
      (Except.ok [⟨40, 2, some (-0.3)⟩])).map Obs.ndvi = some (-3/10) ∧
    ¬(0 ≤ (-3/10 : ℚ)) := by
  refine ⟨?_, by norm_num⟩
  norm_num [query_collection, MULTI_COLLECTIONS, List.lookup, pickMaxBy,
    pyRound, roundHalfEven, List.filter]

/-- C7 (amended): both fetchers consider only images under the 50 %
provider-side cloud threshold, but they pick differently among them:
`GEEProvider.fetch_ndvi` returns the least cloudy such image
(`sort(cloud_field)` then `first()`), while
`MultiSatelliteManager._query_collection` returns the most recent one
(`sort("system:time_start", False)` then `first()`), not the least
cloudy. -/
theorem c7_cloud_prefilter (imgs : List EEImage) (now : ℤ) (name : String)
    (u : ℚ) (obs : Obs)
    (hg : (gee_fetch_ndvi true (Except.ok imgs)).cloud_cover_percent
      = some u)
    (hm : query_collection now name (Except.ok imgs) = some obs) :
    (u < 50 ∧ ∀ im ∈ imgs, im.cloud < 50 → u ≤ im.cloud) ∧
    (obs.cloud_cover < 50 ∧
      ∀ im ∈ imgs, im.cloud < 50 → im.time ≤ obs.date) := by
  obtain ⟨i, rest, w, hF, hnd, -, hdate, hcloud⟩ := query_collection_success hm
  have hsub : ∀ im ∈ imgs, im.cloud < 50 → im ∈ i :: rest := by
    intro im him hcl
    rw [← hF]
    exact List.mem_filter.mpr ⟨him, by simpa using hcl⟩
  have hinF : ∀ x, x ∈ i :: rest → x.cloud < 50 := by
    intro x hx
    rw [← hF] at hx
    simpa using (List.mem_filter.mp hx).2
  have hmax := pickMaxBy_spec EEImage.time i rest
  have hmin := pickMinBy_spec EEImage.cloud i rest
  have hmaxmem : pickMaxBy EEImage.time i rest ∈ i :: rest := by
    rcases hmax.1 with hm' | hm'
    · rw [hm']
      exact List.mem_cons_self _ _
    · exact List.mem_cons_of_mem _ hm'
  have hminmem : pickMinBy EEImage.cloud i rest ∈ i :: rest := by
    rcases hmin.1 with hm' | hm'
    · rw [hm']
      exact List.mem_cons_self _ _
    · exact List.mem_cons_of_mem _ hm'
  rcases hgn : (pickMinBy EEImage.cloud i rest).ndviMean with _ | v
  · unfold gee_fetch_ndvi at hg
    simp [hF, hgn, gee_unavailable_response] at hg
  · rw [gee_fetch_ndvi_success hF hgn] at hg
    simp only [Option.some.injEq] at hg
    subst hg
    refine ⟨⟨hinF _ hminmem, ?_⟩, ?_, ?_⟩
    · intro im him hcl
      rcases List.mem_cons.mp (hsub im him hcl) with h | h
      · rw [h] at hcl ⊢
        exact hmin.2.1
      · exact hmin.2.2 im h
    · rw [hcloud]
      exact hinF _ hmaxmem
    · intro im him hcl
      rw [hdate]
      rcases List.mem_cons.mp (hsub im him hcl) with h | h
      · rw [h]
        exact hmax.2.1
      · exact hmax.2.2 im h

/-- C7 witness: the theorem applied to a two-image collection (clouds
40 % and 10 %); the GEE fetcher's reported cloud cover is 10. -/
theorem c7_cloud_prefilter_witness :
    (10 : ℚ) < 50 ∧
    ∀ im ∈ [(⟨40, 2, some 0.5⟩ : EEImage), ⟨10, 1, some 0.6⟩],
      im.cloud < 50 → (10 : ℚ) ≤ im.cloud :=
  (c7_cloud_prefilter [⟨40, 2, some 0.5⟩, ⟨10, 1, some 0.6⟩] 2
    "Sentinel-2A" 10 ⟨0.5, 2, "Sentinel-2A", 40, 10, 0⟩
    (by norm_num [gee_fetch_ndvi, pickMinBy, pyRound, roundHalfEven,
      List.filter, gee_ndvi_to_health, intTrunc])
    (by norm_num [query_collection, MULTI_COLLECTIONS, List.lookup,
      pickMaxBy, pyRound, roundHalfEven, List.filter])).1

/-- C7 counterexample: with two images under the 50 % threshold (clouds
40 % and 10 %), `_query_collection` returns the observation with cloud
cover 40 — the more recent image — although a strictly less cloudy image
(10 %) was available, so "returns the single image with the lowest cloud
cover" is false for this fetcher. -/
theorem c7_counterexample :
    (query_collection 2 "Sentinel-2A"
      (Except.ok [⟨40, 2, some 0.5⟩, ⟨10, 1, some 0.6⟩])).map Obs.cloud_cover
      = some 40 ∧
    (10 : ℚ) < 40 ∧ (10 : ℚ) < 50 := by
  refine ⟨?_, by norm_num, by norm_num⟩
  norm_num [query_collection, MULTI_COLLECTIONS, List.lookup, pickMaxBy,
    pyRound, roundHalfEven, List.filter]

/-- C9: a failing satellite query is caught and yields an absent
candidate instead of an exception; the remaining satellites are still
queried and the best of them selected, and only when every candidate is
absent (or GEE is not initialized) does the engine fall back. -/
theorem c9_failure_isolation (now : ℤ) (fb : Option ScoredObs)
    (e1 e2 e3 : String) (l8resp : ProviderResult) (o : Obs)
    (h : query_collection now "Landsat-8" l8resp = some o) :
    (∀ (name e : String),
      query_collection now name (Except.error e) = none) ∧
    get_latest_ndvi now true fb (Except.error e1) l8resp (Except.error e2)
      = some (score_candidate o) ∧
    get_latest_ndvi now true fb (Except.error e1) (Except.error e2)
      (Except.error e3) = fb ∧
    get_latest_ndvi now false fb (Except.error e1) l8resp
      (Except.error e2) = fb := by
  have herr : ∀ (name e : String),
      query_collection now name (Except.error e) = none := by
    intro name e
    unfold query_collection
    rcases hl : List.lookup name MULTI_COLLECTIONS with _ | scale <;>
      simp [hl]
  refine ⟨herr, ?_, ?_, ?_⟩
  · simp [get_latest_ndvi, herr, h, select_best, pickMaxBy]
  · simp [get_latest_ndvi, herr]
  · simp [get_latest_ndvi]

/-- C9 witness: Sentinel-2A and Landsat-9 fail, Landsat-8 succeeds with a
single clear image; the engine still selects the Landsat-8
observation. -/
theorem c9_failure_isolation_witness :
    get_latest_ndvi 6 true none (Except.error "s2 down")
      (Except.ok [⟨20, 5, some 0.5⟩]) (Except.error "l9 down")
      = some (score_candidate ⟨0.5, 5, "Landsat-8", 20, 30, 1⟩) :=
  (c9_failure_isolation 6 none "s2 down" "l9 down" "unused"
    (Except.ok [⟨20, 5, some 0.5⟩]) ⟨0.5, 5, "Landsat-8", 20, 30, 1⟩
    (by
      norm_num [query_collection, MULTI_COLLECTIONS, List.lookup,
        pickMaxBy, pyRound, roundHalfEven, List.filter]
      rfl)).2.1

/-- C4 counterexample: the selected Landsat-8 candidate (score 206/3)
carries confidence 0.69 — `round(min(1.0, score/100), 2)` — which is NOT
`min(1.0, score/100) = 103/150 ≈ 0.6867`, so the claim's exact
`confidence = min(1.0, score/100)` is false. -/
theorem c4_counterexample :
    (select_best [⟨0.5, 7, "Landsat-8", 60, 30, 0⟩]).map ScoredObs.confidence
      = some (69/100) ∧
    (select_best [⟨0.5, 7, "Landsat-8", 60, 30, 0⟩]).map
        (fun s => min 1.0 (s.score / 100)) = some (103/150) ∧
    (69/100 : ℚ) ≠ 103/150 := by
  refine ⟨?_, ?_, by norm_num⟩ <;>
    norm_num [select_best, score_candidate, pickMaxBy, pyRound,
      roundHalfEven]

end HelloFarm
